import Mathlib

/-!
Verification of the flow-driven UI-testing framework.

This file gives a shallow embedding of the framework's core layers —
the explicit-wait primitive (`utilities/wait_utils.py`), the
element-interaction wrappers (`data/utilities/element_utils.py`,
`utilities/dropdown_utils.py`, `data/utilities/checkbox_utils.py`),
the page-object base class (`base/base_page.py`), the registration
success cascade (`pages/register_page.py`) and the keyboard login flow
(`flows/login_flow.py`) — and proves the specified properties about it.

Conventions of the embedding:
* Python exceptions are modelled with `Except PyErr`; a `try/except`
  block becomes a `match` on the `Except` value.  A wrapper whose Lean
  return type is plain (`Bool`, `String`, `List`, `Option`) therefore
  cannot propagate an error, mirroring the blanket `except` clauses.
* Python `None` is modelled as `Option.none`; `Optional[str]` becomes
  `Option String`.
* The browser session is modelled by explicit world records; methods
  that interact with the browser return the updated world together
  with their value, and instrumentation fields (click counters, event
  logs) record the interactions performed.
* Time is discrete; one tick is one polling interval of the underlying
  `WebDriverWait` (0.5 s), so a timeout of `n` seconds is `2 * n`
  ticks.
-/

/-- Whether the first list is a leading segment of the second. -/
def leadMatch : List Char → List Char → Bool
  | [], _ => true
  | _ :: _, [] => false
  | c :: cs, d :: ds => c == d && leadMatch cs ds

/-- Whether the first list occurs as a contiguous segment of the
second. -/
def occursIn (needle : List Char) : List Char → Bool
  | [] => leadMatch needle []
  | d :: ds => leadMatch needle (d :: ds) || occursIn needle ds

/-- Python substring containment, `needle in hay`. -/
def pyIn (needle hay : String) : Bool :=
  occursIn needle.data hay.data

/-- Python exception kinds relevant to the wrappers: the three failure
causes of the interaction layer plus `AttributeError` (raised by a
lookup of an attribute that does not exist) and a catch-all. -/
inductive PyErr
  | timeoutErr
  | staleErr
  | noSuchElement
  | attributeError
  | otherErr
deriving DecidableEq, Repr

/-- Locator strategies (`selenium.webdriver.common.by.By`). -/
inductive LocStrategy
  | byId
  | byXpath
  | byClassName
  | byCss
  | byLinkText
  | byName
deriving DecidableEq, Repr

/-- A locator: an immutable (strategy, selector-string) pair. -/
structure Locator where
  strategy : LocStrategy
  selector : String
deriving DecidableEq, Repr

/-- An opaque live element handle. -/
structure ElemH where
  ref : Nat
deriving DecidableEq, Repr

/-- The DOM state of the (first) node matched by a locator at one
instant: present in the DOM, rendered visible, enabled. -/
structure NodeState where
  present : Bool
  displayed : Bool
  enabled : Bool
deriving DecidableEq, Repr

/-- A time-indexed view of the DOM as seen through locators: for each
tick and locator, the state of the matched node, and the handle that a
successful wait would return for the locator. -/
structure WaitWorld where
  node : Nat → Locator → NodeState
  handle : Locator → ElemH

/-- Expected condition `presence_of_element_located`: the node exists
in the DOM. -/
def ECpresence (w : WaitWorld) (loc : Locator) (t : Nat) : Option ElemH :=
  if (w.node t loc).present then some (w.handle loc) else none

/-- Expected condition `visibility_of_element_located`: the node exists
and is rendered (non-zero size, no hiding style). -/
def ECvisibility (w : WaitWorld) (loc : Locator) (t : Nat) : Option ElemH :=
  if (w.node t loc).present && (w.node t loc).displayed then some (w.handle loc) else none

/-- Expected condition `element_to_be_clickable`: visible and enabled. -/
def ECclickable (w : WaitWorld) (loc : Locator) (t : Nat) : Option ElemH :=
  if (w.node t loc).present && (w.node t loc).displayed && (w.node t loc).enabled then
    some (w.handle loc)
  else none

/-- Expected condition `invisibility_of_element_located`: the node is
absent from the DOM or not rendered. -/
def ECinvisibility (w : WaitWorld) (loc : Locator) (t : Nat) : Option ElemH :=
  if !((w.node t loc).present && (w.node t loc).displayed) then some (w.handle loc) else none

/-- Outcome of one `WebDriverWait.until` call: the element found at a
poll tick, or the internal `TimeoutException` raised at a tick. -/
inductive WaitOutcome
  | found (e : ElemH) (t : Nat)
  | timedOut (t : Nat)
deriving DecidableEq, Repr

/-- The tick at which a wait call returned or raised. -/
def WaitOutcome.time : WaitOutcome → Nat
  | .found _ t => t
  | .timedOut t => t

/-- The polling loop of `WebDriverWait.until`: evaluate the condition
at tick `t`; on success return the element, otherwise sleep one
polling interval and raise `TimeoutException` once the deadline `T`
has passed.  The structural `fuel` argument is only an iteration
bound; the authoritative exit is the deadline test `T < t + 1`, and
the entry point supplies `fuel = T + 1`, which the lemmas below show
is never exhausted. -/
def untilAux (cond : Nat → Option ElemH) (T : Nat) : Nat → Nat → WaitOutcome
  | 0, t => .timedOut t
  | fuel + 1, t =>
    match cond t with
    | some e => .found e t
    | none => if T < t + 1 then .timedOut (t + 1) else untilAux cond T fuel (t + 1)

/-- `WebDriverWait(driver, T).until(cond)`, polling from tick 0. -/
def WebDriverWait.until (cond : Nat → Option ElemH) (T : Nat) : WaitOutcome :=
  untilAux cond T (T + 1) 0

/-- The `WaitUtils` instance state: the default timeout in seconds
(`__init__` default 10). -/
structure WaitUtilsS where
  timeout : Nat
deriving DecidableEq, Repr

/-- Seconds to polling ticks: one tick is 0.5 s. -/
def secondsToTicks (s : Nat) : Nat := 2 * s

/-- `WaitUtils.wait_for_visibility`: wait for visibility, swallowing
every exception (hence also the internal timeout) into `None`. -/
def WaitUtils.wait_for_visibility (wu : WaitUtilsS) (w : WaitWorld) (loc : Locator)
    (timeout : Option Nat) : Option ElemH :=
  match WebDriverWait.until (ECvisibility w loc) (secondsToTicks (timeout.getD wu.timeout)) with
  | .found e _ => some e
  | .timedOut _ => none

/-- `WaitUtils.wait_for_clickable`. -/
def WaitUtils.wait_for_clickable (wu : WaitUtilsS) (w : WaitWorld) (loc : Locator)
    (timeout : Option Nat) : Option ElemH :=
  match WebDriverWait.until (ECclickable w loc) (secondsToTicks (timeout.getD wu.timeout)) with
  | .found e _ => some e
  | .timedOut _ => none

/-- `WaitUtils.wait_for_presence`. -/
def WaitUtils.wait_for_presence (wu : WaitUtilsS) (w : WaitWorld) (loc : Locator)
    (timeout : Option Nat) : Option ElemH :=
  match WebDriverWait.until (ECpresence w loc) (secondsToTicks (timeout.getD wu.timeout)) with
  | .found e _ => some e
  | .timedOut _ => none

/-- `WaitUtils.wait_for_invisibility`: `True` on success, `False` on
timeout. -/
def WaitUtils.wait_for_invisibility (wu : WaitUtilsS) (w : WaitWorld) (loc : Locator)
    (timeout : Option Nat) : Bool :=
  match WebDriverWait.until (ECinvisibility w loc) (secondsToTicks (timeout.getD wu.timeout)) with
  | .found _ _ => true
  | .timedOut _ => false

/-- `WaitUtils.wait_for_element`: alias for `wait_for_presence`. -/
def WaitUtils.wait_for_element (wu : WaitUtilsS) (w : WaitWorld) (loc : Locator)
    (timeout : Option Nat) : Option ElemH :=
  WaitUtils.wait_for_presence wu w loc timeout

/-- The method table of the `WaitUtils` class: a Python attribute
lookup on a `WaitUtils` instance resolves one of exactly these five
method names (plus data attributes, irrelevant here); any other name
raises `AttributeError`. -/
inductive WUMethod
  | visibilityM
  | clickableM
  | presenceM
  | invisibilityM
  | elementM
deriving DecidableEq, Repr

/-- Attribute resolution on the `WaitUtils` class, transcribed from the
method definitions of `utilities/wait_utils.py`. -/
def WaitUtils.methodOfName (n : String) : Option WUMethod :=
  if n = "wait_for_visibility" then some WUMethod.visibilityM
  else if n = "wait_for_clickable" then some WUMethod.clickableM
  else if n = "wait_for_presence" then some WUMethod.presenceM
  else if n = "wait_for_invisibility" then some WUMethod.invisibilityM
  else if n = "wait_for_element" then some WUMethod.elementM
  else none

/-- A dynamically typed Python return value of a `WaitUtils` method:
either an `Optional[WebElement]` or a `bool`. -/
inductive PyVal
  | elemV (e : Option ElemH)
  | boolV (b : Bool)
deriving DecidableEq, Repr

/-- Invoke a resolved `WaitUtils` method. -/
def WaitUtils.callMethod (m : WUMethod) (wu : WaitUtilsS) (w : WaitWorld) (loc : Locator)
    (timeout : Option Nat) : PyVal :=
  match m with
  | .visibilityM => .elemV (WaitUtils.wait_for_visibility wu w loc timeout)
  | .clickableM => .elemV (WaitUtils.wait_for_clickable wu w loc timeout)
  | .presenceM => .elemV (WaitUtils.wait_for_presence wu w loc timeout)
  | .invisibilityM => .boolV (WaitUtils.wait_for_invisibility wu w loc timeout)
  | .elementM => .elemV (WaitUtils.wait_for_element wu w loc timeout)

/-- The `BasePage` instance state: its `wait_utils` attribute. -/
structure BasePageS where
  wait_utils : WaitUtilsS
deriving DecidableEq, Repr

/-- The browser world seen by a `BasePage`: the time-indexed DOM for
the waits, the `driver.find_elements` view, element text, and
instrumentation recording the browser interactions performed. -/
structure PageWorld where
  wait : WaitWorld
  find_elementsW : Locator → List ElemH
  elemText : ElemH → String
  clicks : Nat
  typedLog : List (Locator × String)
  clearedLog : List Locator

/-- `BasePage.find`: evaluates `self.wait_utils.wait_for_element_presence`,
an attribute the `WaitUtils` class does not define, so the lookup
raises `AttributeError` before the locator is ever used. -/
def BasePage.find (bp : BasePageS) (w : PageWorld) (loc : Locator) : Except PyErr PyVal :=
  match WaitUtils.methodOfName ("wait_for_element_presence") with
  | none => Except.error PyErr.attributeError
  | some m => Except.ok (WaitUtils.callMethod m bp.wait_utils w.wait loc none)

/-- `BasePage.click`: looks up `wait_for_element_clickable` (undefined
on `WaitUtils`), then would click the returned element. -/
def BasePage.click (bp : BasePageS) (w : PageWorld) (loc : Locator) :
    Except PyErr Unit × PageWorld :=
  match WaitUtils.methodOfName ("wait_for_element_clickable") with
  | none => (Except.error PyErr.attributeError, w)
  | some m =>
    match WaitUtils.callMethod m bp.wait_utils w.wait loc none with
    | .elemV (some _) => (Except.ok (), { w with clicks := w.clicks + 1 })
    | .elemV none => (Except.error PyErr.attributeError, w)
    | .boolV _ => (Except.error PyErr.attributeError, w)

/-- `BasePage.type`: looks up `wait_for_element_presence` (undefined),
then would clear (when `clear_first`) and send the keys. -/
def BasePage.type (bp : BasePageS) (w : PageWorld) (loc : Locator) (text : String)
    (clear_first : Bool) : Except PyErr Unit × PageWorld :=
  match WaitUtils.methodOfName ("wait_for_element_presence") with
  | none => (Except.error PyErr.attributeError, w)
  | some m =>
    match WaitUtils.callMethod m bp.wait_utils w.wait loc none with
    | .elemV (some _) =>
      let w1 := if clear_first then { w with clearedLog := loc :: w.clearedLog } else w
      (Except.ok (), { w1 with typedLog := (loc, text) :: w1.typedLog })
    | .elemV none => (Except.error PyErr.attributeError, w)
    | .boolV _ => (Except.error PyErr.attributeError, w)

/-- `BasePage.clear`: looks up `wait_for_element_presence` (undefined),
then would clear the field. -/
def BasePage.clear (bp : BasePageS) (w : PageWorld) (loc : Locator) :
    Except PyErr Unit × PageWorld :=
  match WaitUtils.methodOfName ("wait_for_element_presence") with
  | none => (Except.error PyErr.attributeError, w)
  | some m =>
    match WaitUtils.callMethod m bp.wait_utils w.wait loc none with
    | .elemV (some _) => (Except.ok (), { w with clearedLog := loc :: w.clearedLog })
    | .elemV none => (Except.error PyErr.attributeError, w)
    | .boolV _ => (Except.error PyErr.attributeError, w)

/-- `BasePage.find_all`: the call to the undefined
`wait_for_element_presence` raises inside the `try`, so the bare
`except` returns the empty list. -/
def BasePage.find_all (bp : BasePageS) (w : PageWorld) (loc : Locator) : List ElemH :=
  match WaitUtils.methodOfName ("wait_for_element_presence") with
  | none => []
  | some m =>
    match WaitUtils.callMethod m bp.wait_utils w.wait loc none with
    | _ => w.find_elementsW loc

/-- `BasePage.get_text`: `self.find(locator)` inside a `try` whose
`except` returns the empty string. -/
def BasePage.get_text (bp : BasePageS) (w : PageWorld) (loc : Locator) : String :=
  match BasePage.find bp w loc with
  | Except.error _ => ""
  | Except.ok (.elemV (some e)) => w.elemText e
  | Except.ok (.elemV none) => ""
  | Except.ok (.boolV _) => ""

/-- `BasePage.is_visible`: calls the undefined
`wait_for_element_visibility` inside a `try`; the `except` returns
`False`, the success branch would return `True`. -/
def BasePage.is_visible (bp : BasePageS) (w : PageWorld) (loc : Locator)
    (timeout : Option Nat) : Bool :=
  match WaitUtils.methodOfName ("wait_for_element_visibility") with
  | none => false
  | some m =>
    match WaitUtils.callMethod m bp.wait_utils w.wait loc timeout with
    | _ => true

/-- A live element as seen by `ElementUtils`: each library call on it
either yields a value or raises. -/
structure SimElem where
  textR : Except PyErr String
  displayedR : Except PyErr Bool
  enabledR : Except PyErr Bool
  attrR : String → Except PyErr (Option String)
  clickR : Except PyErr Unit
  clearR : Except PyErr Unit
  sendKeysR : String → Except PyErr Unit

/-- The driver as seen by `ElementUtils`: `driver.find_element` yields
an element reference (`none` models a falsy reference, guarded by the
source's `if element:` checks) or raises. -/
structure SimDriver where
  find_elementR : Locator → Except PyErr (Option SimElem)

/-- `ElementUtils.click`: find, click, `True`; any failure → `False`. -/
def ElementUtils.click (d : SimDriver) (loc : Locator) : Bool :=
  match d.find_elementR loc with
  | Except.error _ => false
  | Except.ok none => false
  | Except.ok (some el) =>
    match el.clickR with
    | Except.error _ => false
    | Except.ok _ => true

/-- `ElementUtils.type_text`: find, clear, send keys, `True`; any
failure → `False`. -/
def ElementUtils.type_text (d : SimDriver) (loc : Locator) (text : String) : Bool :=
  match d.find_elementR loc with
  | Except.error _ => false
  | Except.ok none => false
  | Except.ok (some el) =>
    match el.clearR with
    | Except.error _ => false
    | Except.ok _ =>
      match el.sendKeysR text with
      | Except.error _ => false
      | Except.ok _ => true

/-- `ElementUtils.get_text`: element text, or `""` on any failure. -/
def ElementUtils.get_text (d : SimDriver) (loc : Locator) : String :=
  match d.find_elementR loc with
  | Except.error _ => ""
  | Except.ok none => ""
  | Except.ok (some el) =>
    match el.textR with
    | Except.error _ => ""
    | Except.ok s => s

/-- `ElementUtils.is_displayed`: `False` on any failure. -/
def ElementUtils.is_displayed (d : SimDriver) (loc : Locator) : Bool :=
  match d.find_elementR loc with
  | Except.error _ => false
  | Except.ok none => false
  | Except.ok (some el) =>
    match el.displayedR with
    | Except.error _ => false
    | Except.ok b => b

/-- `ElementUtils.is_enabled`: `False` on any failure. -/
def ElementUtils.is_enabled (d : SimDriver) (loc : Locator) : Bool :=
  match d.find_elementR loc with
  | Except.error _ => false
  | Except.ok none => false
  | Except.ok (some el) =>
    match el.enabledR with
    | Except.error _ => false
    | Except.ok b => b

/-- `ElementUtils.get_attribute`: `""` on any failure; on success the
library value, which is `None` (`none`) when the attribute is absent.
A Python string `s` is `some s`. -/
def ElementUtils.get_attribute (d : SimDriver) (loc : Locator) (attrName : String) :
    Option String :=
  match d.find_elementR loc with
  | Except.error _ => some ""
  | Except.ok none => some ""
  | Except.ok (some el) =>
    match el.attrR attrName with
    | Except.error _ => some ""
    | Except.ok v => v

/-- `ElementUtils.clear_field`: `False` on any failure. -/
def ElementUtils.clear_field (d : SimDriver) (loc : Locator) : Bool :=
  match d.find_elementR loc with
  | Except.error _ => false
  | Except.ok none => false
  | Except.ok (some el) =>
    match el.clearR with
    | Except.error _ => false
    | Except.ok _ => true

/-- One option of a select control: its visible text and whether it is
currently selected. -/
structure DOpt where
  text : String
  selected : Bool
deriving DecidableEq, Repr

/-- A select control as handed to `DropdownUtils`: `isSelect` is
whether the tag really is a select (the `Select(element)` constructor
raises otherwise), `multiple` its multi-select capability, and the
option list in DOM order. -/
structure DElem where
  isSelect : Bool
  multiple : Bool
  options : List DOpt
deriving DecidableEq, Repr

/-- Index of the first option whose visible text equals `t`
(`Select.select_by_visible_text` matches first, raises when none). -/
def findTextIdx (t : String) : List DOpt → Option Nat
  | [] => none
  | o :: rest => if o.text == t then some 0 else (findTextIdx t rest).map (· + 1)

/-- Browser outcome of clicking option `i` of a single select: it
becomes the unique selected option. -/
def selectOnlyAt : List DOpt → Nat → List DOpt
  | [], _ => []
  | o :: rest, 0 => { o with selected := true } :: rest.map (fun o' => { o' with selected := false })
  | o :: rest, n + 1 => { o with selected := false } :: selectOnlyAt rest n

/-- Browser outcome of clicking option `i` of a multi select: that
option toggles on, the others keep their state. -/
def setSelTrueAt : List DOpt → Nat → List DOpt
  | [], _ => []
  | o :: rest, 0 => { o with selected := true } :: rest
  | o :: rest, n + 1 => o :: setSelTrueAt rest n

/-- `Select._set_selected(options[i])`: click only when the option is
not already selected; the click outcome depends on multi-select
capability. -/
def setSelectedAt (e : DElem) (i : Nat) : DElem :=
  match e.options[i]? with
  | none => e
  | some o =>
    if o.selected then e
    else if e.multiple then { e with options := setSelTrueAt e.options i }
    else { e with options := selectOnlyAt e.options i }

/-- `DropdownUtils.select_by_visible_text`: `False` for a falsy
element, a non-select tag, or a missing option text; otherwise select
the first matching option and return `True`.  The updated element is
returned alongside. -/
def DropdownUtils.select_by_visible_text (de : Option DElem) (t : String) :
    Bool × Option DElem :=
  match de with
  | none => (false, none)
  | some e =>
    if e.isSelect = false then (false, some e)
    else
      match findTextIdx t e.options with
      | none => (false, some e)
      | some i => (true, some (setSelectedAt e i))

/-- `DropdownUtils.get_selected_option_text`: the text of
`Select.first_selected_option`, or `None` when the element is falsy,
not a select, or has no selected option (the inner
`NoSuchElementException` is swallowed). -/
def DropdownUtils.get_selected_option_text (de : Option DElem) : Option String :=
  match de with
  | none => none
  | some e =>
    if e.isSelect = false then none
    else
      match e.options.find? (fun o => o.selected) with
      | none => none
      | some o => some o.text

/-- `DropdownUtils.get_all_options`: every option text, `[]` on any
failure. -/
def DropdownUtils.get_all_options (de : Option DElem) : List String :=
  match de with
  | none => []
  | some e =>
    if e.isSelect = false then []
    else e.options.map (fun o => o.text)

/-- A checkbox / radio element as handed to `CheckboxUtils`:
`present` is Python truthiness of the reference, `attached` is whether
the handle is still attached to the DOM (a stale handle raises on any
access), and `clickEffect` is the browser's state transition when the
element is clicked (for a genuine checkbox it is `not`). -/
structure CbElem where
  present : Bool
  attached : Bool
  clickEffect : Bool → Bool

/-- The mutable state behind a checkbox element: its current selection
state and an instrumentation counter of clicks issued on it. -/
structure CbState where
  sel : Bool
  clicks : Nat
deriving DecidableEq, Repr

/-- `CheckboxUtils.is_checked`: `element.is_selected()`, `False` for a
falsy element or on any exception. -/
def CheckboxUtils.is_checked (e : CbElem) (st : CbState) : Bool :=
  if e.present = false then false
  else if e.attached = false then false
  else st.sel

/-- `CheckboxUtils.check`: click only when not already selected, then
return the re-read selection state. -/
def CheckboxUtils.check (e : CbElem) (st : CbState) : Bool × CbState :=
  if e.present = false then (false, st)
  else if e.attached = false then (false, st)
  else
    let st' :=
      if !st.sel then { sel := e.clickEffect st.sel, clicks := st.clicks + 1 } else st
    (st'.sel, st')

/-- `CheckboxUtils.uncheck`: click only when selected, then return the
negated re-read selection state. -/
def CheckboxUtils.uncheck (e : CbElem) (st : CbState) : Bool × CbState :=
  if e.present = false then (false, st)
  else if e.attached = false then (false, st)
  else
    let st' :=
      if st.sel then { sel := e.clickEffect st.sel, clicks := st.clicks + 1 } else st
    (!st'.sel, st')

/-- `CheckboxUtils.set_state`: read the current state, click only when
it differs from the desired state, then report whether the re-read
state equals the desired one. -/
def CheckboxUtils.set_state (e : CbElem) (st : CbState) (checked : Bool) : Bool × CbState :=
  if e.present = false then (false, st)
  else if e.attached = false then (false, st)
  else
    let cur := st.sel
    let st' :=
      if checked && !cur then { sel := e.clickEffect cur, clicks := st.clicks + 1 }
      else if !checked && cur then { sel := e.clickEffect cur, clicks := st.clicks + 1 }
      else st
    (st'.sel == checked, st')

/-- The four stages of the registration success determination of
`RegisterPage.is_success_message_displayed`. -/
inductive SuccessCheck
  | urlRedirect
  | msgVisible
  | pageContent
  | altLocators
deriving DecidableEq, Repr

/-- The fixed order in which the stages appear in the source. -/
def successCheckOrder : List SuccessCheck :=
  [SuccessCheck.urlRedirect, SuccessCheck.msgVisible,
   SuccessCheck.pageContent, SuccessCheck.altLocators]

/-- The registration result page as observed while
`is_success_message_displayed` runs (the page is taken as unchanging
during the check): the current URL and page source, whether the
success-message container becomes visible, and whether each of the
four alternative locators finds a displayed element. -/
structure RegPageWorld where
  current_url : String
  page_source : String
  successMsgVisible : Bool
  altH1YourAccount : Bool
  altDivThankYou : Bool
  altH1Success : Bool
  altContentpanel : Bool

/-- Stage-1 signal: `"account/success" in driver.current_url`. -/
def urlSignal (w : RegPageWorld) : Bool :=
  pyIn ("account/success") w.current_url

/-- Stage-2 signal: the success-message container is visible. -/
def msgSignal (w : RegPageWorld) : Bool :=
  w.successMsgVisible

/-- Stage-3 signal: `any` of the five page-content indicators of the
source's `success_indicators` dict. -/
def contentSignal (w : RegPageWorld) : Bool :=
  pyIn ("account/success") w.current_url
    || pyIn ("Your Account") w.page_source
    || pyIn ("Success") w.page_source
    || pyIn ("Thank you") w.page_source
    || pyIn ("congratulations") w.page_source.toLower

/-- Stage-4 signal: some alternative locator finds a displayed
element. -/
def altSignal (w : RegPageWorld) : Bool :=
  w.altH1YourAccount || w.altDivThankYou || w.altH1Success || w.altContentpanel

/-- `RegisterPage.is_success_message_displayed`: the ordered cascade of
the four strategies, returning `True` at the first positive one.  The
second component records which stages were consulted, in order. -/
def RegisterPage.is_success_message_displayed (w : RegPageWorld) :
    Bool × List SuccessCheck :=
  if urlSignal w then (true, [SuccessCheck.urlRedirect])
  else if msgSignal w then (true, [SuccessCheck.urlRedirect, SuccessCheck.msgVisible])
  else if contentSignal w then
    (true, [SuccessCheck.urlRedirect, SuccessCheck.msgVisible, SuccessCheck.pageContent])
  else if altSignal w then (true, successCheckOrder)
  else (false, successCheckOrder)

/-- Modelled from the spec: the tie-break policy of §4.4 — an ordered
list of checks, accept the first positive signal, consulting no later
check; the result is the accepted value and the number of checks
consulted. -/
def cascadePolicySpec : List Bool → Bool × Nat
  | [] => (false, 0)
  | b :: rest =>
    if b then (true, 1)
    else
      let r := cascadePolicySpec rest
      (r.1, r.2 + 1)

/-- Events of a login-flow run, in execution order. -/
inductive FlowEv
  | clickedRegisterLink
  | typedKeys (field : String) (text : String)
  | pressedTab
  | pressedEnter
  | slept (secs : Nat)
  | clickedLoginButton
deriving DecidableEq, Repr

/-- The world observed by `LoginFlow.validate_login_using_keyboard_keys`:
the URL read after the fixed 1 s delay following the Enter-key
submission, and whether the My Account indicator becomes visible after
the fallback button click. -/
structure LoginWorld where
  urlAfterEnter : String
  myAccountVisible : Bool

/-- `LoginFlow.validate_login_using_keyboard_keys`: navigate to the
login form, type the credentials with the keyboard (Tab between
fields, Enter on the password field), sleep 1 s, and check the URL for
the account-page marker; only when the marker is absent, fall back to
clicking the Login button and report the My Account indicator.  The
event list records the browser interactions in order. -/
def LoginFlow.validate_login_using_keyboard_keys (w : LoginWorld)
    (username password : String) : Bool × List FlowEv :=
  let entryEvents :=
    [FlowEv.clickedRegisterLink,
     FlowEv.typedKeys ("loginFrm_loginname") username, FlowEv.pressedTab,
     FlowEv.typedKeys ("loginFrm_password") password, FlowEv.pressedEnter,
     FlowEv.slept 1]
  if pyIn ("rt=account/account") w.urlAfterEnter then (true, entryEvents)
  else (w.myAccountVisible, entryEvents ++ [FlowEv.clickedLoginButton])

/-- A sample locator (the first-name field of the registration form). -/
def loc0 : Locator := { strategy := LocStrategy.byXpath, selector := "AccountFrm_firstname" }

/-- A DOM in which no locator ever matches anything. -/
def wNever : WaitWorld :=
  { node := fun _ _ => { present := false, displayed := false, enabled := false },
    handle := fun _ => { ref := 0 } }

/-- A DOM in which every locator matches a visible, enabled node. -/
def wAlways : WaitWorld :=
  { node := fun _ _ => { present := true, displayed := true, enabled := true },
    handle := fun _ => { ref := 0 } }

/-- The wait loop finishes by tick `T + 1` (deadline plus one polling
interval), whatever the condition does. -/
theorem untilAux_time_le (cond : Nat → Option ElemH) (T : Nat) :
    ∀ fuel t, t ≤ T → (untilAux cond T fuel t).time ≤ T + 1 := by
  intro fuel
  induction fuel with
  | zero =>
    intro t ht
    simp only [untilAux, WaitOutcome.time]
    omega
  | succ n ih =>
    intro t ht
    cases h : cond t with
    | some e =>
      simp only [untilAux, h, WaitOutcome.time]
      omega
    | none =>
      by_cases hd : T < t + 1
      · simp only [untilAux, h, hd, if_true, WaitOutcome.time]
        omega
      · simp only [untilAux, h, hd, if_false]
        exact ih (t + 1) (by omega)

/-- With adequate fuel, a condition that never holds before the
deadline makes the loop raise `TimeoutException` at tick `T + 1`. -/
theorem untilAux_never (cond : Nat → Option ElemH) (T : Nat) :
    ∀ fuel t, T + 1 ≤ fuel + t → t ≤ T → (∀ j, j ≤ T → cond j = none) →
      untilAux cond T fuel t = WaitOutcome.timedOut (T + 1) := by
  intro fuel
  induction fuel with
  | zero =>
    intro t hf ht _
    omega
  | succ n ih =>
    intro t hf ht hcond
    have hc : cond t = none := hcond t ht
    by_cases hd : T < t + 1
    · have htT : t = T := by omega
      simp only [untilAux, hc, hd, if_true]
      rw [htT]
    · simp only [untilAux, hc, hd, if_false]
      exact ih (t + 1) (by omega) (by omega) hcond

/-- With adequate fuel, the loop returns the element of the first tick
at which the condition holds, provided that tick is within the
deadline. -/
theorem untilAux_firstHit (cond : Nat → Option ElemH) (T : Nat) (e : ElemH) :
    ∀ fuel t k, t ≤ k → k ≤ T → T + 1 ≤ fuel + t → cond k = some e →
      (∀ j, t ≤ j → j < k → cond j = none) →
      untilAux cond T fuel t = WaitOutcome.found e k := by
  intro fuel
  induction fuel with
  | zero =>
    intro t k htk hkT hf _ _
    omega
  | succ n ih =>
    intro t k htk hkT hf hck hnone
    by_cases htk' : t = k
    · subst htk'
      simp only [untilAux, hck]
    · have hlt : t < k := by omega
      have hct : cond t = none := hnone t (le_refl t) hlt
      have hd : ¬(T < t + 1) := by omega
      simp only [untilAux, hct, hd, if_false]
      exact ih (t + 1) k (by omega) hkT (by omega) hck
        (fun j hj1 hj2 => hnone j (by omega) hj2)

/-- `WebDriverWait.until` raises `TimeoutException` at `T + 1` when the
condition never holds within the deadline. -/
theorem until_never (cond : Nat → Option ElemH) (T : Nat)
    (h : ∀ j, j ≤ T → cond j = none) :
    WebDriverWait.until cond T = WaitOutcome.timedOut (T + 1) :=
  untilAux_never cond T (T + 1) 0 (by omega) (by omega) h

/-- `WebDriverWait.until` returns the element of the first tick at
which the condition holds, when that tick is within the deadline. -/
theorem until_firstHit (cond : Nat → Option ElemH) (T k : Nat) (e : ElemH)
    (hkT : k ≤ T) (hck : cond k = some e) (hnone : ∀ j, j < k → cond j = none) :
    WebDriverWait.until cond T = WaitOutcome.found e k :=
  untilAux_firstHit cond T e (T + 1) 0 k (by omega) hkT (by omega) hck
    (fun j _ hj => hnone j hj)

/-- `WebDriverWait.until` finishes by tick `T + 1`. -/
theorem until_time_le (cond : Nat → Option ElemH) (T : Nat) :
    (WebDriverWait.until cond T).time ≤ T + 1 :=
  untilAux_time_le cond T (T + 1) 0 (by omega)

/-- C2: for every locator (and any page world), `BasePage.click` fails
with `AttributeError` — `WaitUtils` defines no
`wait_for_element_clickable` — and performs no click (the world, with
its click counter, is returned unchanged); likewise `BasePage.find`,
`BasePage.type` and `BasePage.clear` fail on the undefined
`wait_for_element_presence` before any browser interaction. -/
theorem base_page_undefined_wait_methods (bp : BasePageS) (w : PageWorld) (loc : Locator)
    (s : String) (cf : Bool) :
    BasePage.find bp w loc = Except.error PyErr.attributeError
    ∧ BasePage.click bp w loc = (Except.error PyErr.attributeError, w)
    ∧ BasePage.type bp w loc s cf = (Except.error PyErr.attributeError, w)
    ∧ BasePage.clear bp w loc = (Except.error PyErr.attributeError, w) :=
  ⟨rfl, rfl, rfl, rfl⟩

/-- C4: for every locator, page world and timeout, `BasePage.get_text`
returns `""` and `BasePage.is_visible` returns `False`: each guards a
call that reaches an undefined `WaitUtils` method behind a blanket
`except`, so the success branch is unreachable and both functions are
constant. -/
theorem base_page_get_text_is_visible_constant (bp : BasePageS) (w : PageWorld)
    (loc : Locator) (timeout : Option Nat) :
    BasePage.get_text bp w loc = "" ∧ BasePage.is_visible bp w loc timeout = false :=
  ⟨rfl, rfl⟩

/-- C3 (counterexample): on a DOM where the visibility condition never
holds, the inner `WebDriverWait.until` raises its `TimeoutException`
at tick 21 (default timeout 10 s = 20 ticks, plus one polling
interval), but `WaitUtils.wait_for_visibility` swallows it and returns
the normal value `None` — no `TimeoutError` reaches the caller, so
the claim that the wait primitive fails by raising `TimeoutError` is
false at this input. -/
theorem wait_primitive_timeout_swallowed_cx :
    WebDriverWait.until (ECvisibility wNever loc0) (secondsToTicks 10)
      = WaitOutcome.timedOut 21
    ∧ WaitUtils.wait_for_visibility { timeout := 10 } wNever loc0 none = none :=
  ⟨rfl, rfl⟩

/-- C3 (amended): the wait primitive, given a locator and a timeout,
returns `some` handle when the condition is first satisfied at a poll
tick within the deadline, and returns the failure sentinel `None`
(rather than raising `TimeoutError`, which the underlying
`WebDriverWait` raises only internally) when the condition is never
satisfied within the deadline — for each variant: presence,
visibility, clickability. -/
theorem wait_primitive_handle_or_none (wu : WaitUtilsS) (w : WaitWorld) (loc : Locator)
    (tOpt : Option Nat) (k : Nat) (e : ElemH) :
    ((∀ j, j ≤ secondsToTicks (tOpt.getD wu.timeout) → ECpresence w loc j = none) →
       WaitUtils.wait_for_presence wu w loc tOpt = none)
    ∧ (k ≤ secondsToTicks (tOpt.getD wu.timeout) → ECpresence w loc k = some e →
        (∀ j, j < k → ECpresence w loc j = none) →
        WaitUtils.wait_for_presence wu w loc tOpt = some e)
    ∧ ((∀ j, j ≤ secondsToTicks (tOpt.getD wu.timeout) → ECvisibility w loc j = none) →
        WaitUtils.wait_for_visibility wu w loc tOpt = none)
    ∧ (k ≤ secondsToTicks (tOpt.getD wu.timeout) → ECvisibility w loc k = some e →
        (∀ j, j < k → ECvisibility w loc j = none) →
        WaitUtils.wait_for_visibility wu w loc tOpt = some e)
    ∧ ((∀ j, j ≤ secondsToTicks (tOpt.getD wu.timeout) → ECclickable w loc j = none) →
        WaitUtils.wait_for_clickable wu w loc tOpt = none)
    ∧ (k ≤ secondsToTicks (tOpt.getD wu.timeout) → ECclickable w loc k = some e →
        (∀ j, j < k → ECclickable w loc j = none) →
        WaitUtils.wait_for_clickable wu w loc tOpt = some e) := by
  refine ⟨?_, ?_, ?_, ?_, ?_, ?_⟩
  · intro h
    unfold WaitUtils.wait_for_presence
    rw [until_never _ _ h]
  · intro hk hc hn
    unfold WaitUtils.wait_for_presence
    rw [until_firstHit _ _ k e hk hc hn]
  · intro h
    unfold WaitUtils.wait_for_visibility
    rw [until_never _ _ h]
  · intro hk hc hn
    unfold WaitUtils.wait_for_visibility
    rw [until_firstHit _ _ k e hk hc hn]
  · intro h
    unfold WaitUtils.wait_for_clickable
    rw [until_never _ _ h]
  · intro hk hc hn
    unfold WaitUtils.wait_for_clickable
    rw [until_firstHit _ _ k e hk hc hn]

/-- Witness for the amended C3 theorem: a never-matching DOM makes the
presence wait return `None`, and an immediately visible node makes
the visibility wait return its handle. -/
theorem wait_primitive_handle_or_none_witness :
    WaitUtils.wait_for_presence { timeout := 10 } wNever loc0 none = none
    ∧ WaitUtils.wait_for_visibility { timeout := 10 } wAlways loc0 none = some { ref := 0 } :=
  ⟨(wait_primitive_handle_or_none { timeout := 10 } wNever loc0 none 0 { ref := 0 }).1
      (fun _ _ => rfl),
   (wait_primitive_handle_or_none { timeout := 10 } wAlways loc0 none 0 { ref := 0 }).2.2.2.1
      (by omega) rfl (fun j hj => absurd hj (by omega))⟩

/-- C8: the visibility wait always finishes by `timeout + polling
interval` (tick `T + 1` where `T` is the timeout in 0.5 s ticks), for
every timeout value; and on a locator whose visibility condition never
becomes true it returns `None` exactly at that bound — it never
blocks indefinitely. -/
theorem wait_visibility_terminates_within_bound (wu : WaitUtilsS) (w : WaitWorld)
    (loc : Locator) (tOpt : Option Nat) :
    ((WebDriverWait.until (ECvisibility w loc) (secondsToTicks (tOpt.getD wu.timeout))).time
        ≤ secondsToTicks (tOpt.getD wu.timeout) + 1)
    ∧ ((∀ j, ECvisibility w loc j = none) →
        WaitUtils.wait_for_visibility wu w loc tOpt = none
        ∧ (WebDriverWait.until (ECvisibility w loc)
            (secondsToTicks (tOpt.getD wu.timeout))).time
          = secondsToTicks (tOpt.getD wu.timeout) + 1) := by
  constructor
  · exact until_time_le _ _
  · intro h
    constructor
    · unfold WaitUtils.wait_for_visibility
      rw [until_never _ _ (fun j _ => h j)]
    · rw [until_never _ _ (fun j _ => h j)]
      rfl

/-- Witness for C8 at the default timeout (10 s): the wait on a
never-appearing locator returns `None` and the internal raise happens
at tick 21 = 20 + 1 (10 s timeout plus one 0.5 s poll). -/
theorem wait_visibility_terminates_within_bound_witness :
    WaitUtils.wait_for_visibility { timeout := 10 } wNever loc0 none = none
    ∧ (WebDriverWait.until (ECvisibility wNever loc0) (secondsToTicks 10)).time = 21 :=
  (wait_visibility_terminates_within_bound { timeout := 10 } wNever loc0 none).2
    (fun _ => rfl)

/-- A driver on which every element lookup times out. -/
def d0 : SimDriver := { find_elementR := fun _ => Except.error PyErr.timeoutErr }

/-- An element gone stale: every access on it raises. -/
def el0 : SimElem :=
  { textR := Except.error PyErr.staleErr
    displayedR := Except.error PyErr.staleErr
    enabledR := Except.error PyErr.staleErr
    attrR := fun _ => Except.error PyErr.staleErr
    clickR := Except.error PyErr.staleErr
    clearR := Except.error PyErr.staleErr
    sendKeysR := fun _ => Except.error PyErr.staleErr }

/-- An element that is not a select control. -/
def de0 : DElem := { isSelect := false, multiple := false, options := [] }

/-- A select control with no selected option:
`Select.first_selected_option` raises `NoSuchElementException` on it. -/
def dNoSel : DElem :=
  { isSelect := true, multiple := false, options := [{ text := "A", selected := false }] }

/-- A page world with an empty DOM. -/
def pw0 : PageWorld :=
  { wait := wNever
    find_elementsW := fun _ => []
    elemText := fun _ => ""
    clicks := 0
    typedLog := []
    clearedLog := [] }

/-- C1 (counterexample): `DropdownUtils.get_selected_option_text` on a
real select control in which no option is selected — a no-such-element
failure of `first_selected_option` — yields Python `None` (`none`),
not the empty string `""` (`some ""`) the claim states. -/
theorem get_selected_option_text_none_cx :
    DropdownUtils.get_selected_option_text (some dNoSel) = none
    ∧ DropdownUtils.get_selected_option_text (some dNoSel) ≠ some "" := by
  constructor
  · rfl
  · intro h
    simp [DropdownUtils.get_selected_option_text, dNoSel] at h

/-- C1 (amended): on every failure — the element lookup raising
(timeout, stale, no-such-element, any error) or yielding a falsy
reference, or the subsequent element operation raising — each
interaction wrapper swallows the error and returns its neutral
default: `False` for `click`, `type_text`, `clear_field`,
`is_displayed`, `is_enabled`; `""` for `get_text` and `get_attribute`;
`[]` for `get_all_options` and `find_all`; and `None` (not `""`) for
`get_selected_option_text`.  No wrapper propagates an exception: each
is a total function into its plain value type. -/
theorem element_wrappers_swallow_failures (d : SimDriver) (loc : Locator) (s a : String)
    (el : SimElem) (err : PyErr) (de : DElem) (bp : BasePageS) (w : PageWorld) :
    (d.find_elementR loc = Except.error err →
       ElementUtils.click d loc = false
       ∧ ElementUtils.type_text d loc s = false
       ∧ ElementUtils.clear_field d loc = false
       ∧ ElementUtils.is_displayed d loc = false
       ∧ ElementUtils.is_enabled d loc = false
       ∧ ElementUtils.get_text d loc = ""
       ∧ ElementUtils.get_attribute d loc a = some "")
    ∧ (d.find_elementR loc = Except.ok none →
       ElementUtils.click d loc = false
       ∧ ElementUtils.type_text d loc s = false
       ∧ ElementUtils.clear_field d loc = false
       ∧ ElementUtils.is_displayed d loc = false
       ∧ ElementUtils.is_enabled d loc = false
       ∧ ElementUtils.get_text d loc = ""
       ∧ ElementUtils.get_attribute d loc a = some "")
    ∧ (d.find_elementR loc = Except.ok (some el) →
       (el.clickR = Except.error err → ElementUtils.click d loc = false)
       ∧ (el.clearR = Except.error err →
          ElementUtils.type_text d loc s = false ∧ ElementUtils.clear_field d loc = false)
       ∧ (el.sendKeysR s = Except.error err → ElementUtils.type_text d loc s = false)
       ∧ (el.textR = Except.error err → ElementUtils.get_text d loc = "")
       ∧ (el.displayedR = Except.error err → ElementUtils.is_displayed d loc = false)
       ∧ (el.enabledR = Except.error err → ElementUtils.is_enabled d loc = false)
       ∧ (el.attrR a = Except.error err → ElementUtils.get_attribute d loc a = some ""))
    ∧ (DropdownUtils.get_all_options none = []
       ∧ (de.isSelect = false → DropdownUtils.get_all_options (some de) = [])
       ∧ DropdownUtils.get_selected_option_text none = none
       ∧ (de.isSelect = false → DropdownUtils.get_selected_option_text (some de) = none)
       ∧ (de.options.all (fun o => !o.selected) = true →
          DropdownUtils.get_selected_option_text (some de) = none))
    ∧ BasePage.find_all bp w loc = [] := by
  refine ⟨?_, ?_, ?_, ⟨rfl, ?_, rfl, ?_, ?_⟩, rfl⟩
  · intro h
    refine ⟨?_, ?_, ?_, ?_, ?_, ?_, ?_⟩ <;>
      simp [ElementUtils.click, ElementUtils.type_text, ElementUtils.clear_field,
        ElementUtils.is_displayed, ElementUtils.is_enabled, ElementUtils.get_text,
        ElementUtils.get_attribute, h]
  · intro h
    refine ⟨?_, ?_, ?_, ?_, ?_, ?_, ?_⟩ <;>
      simp [ElementUtils.click, ElementUtils.type_text, ElementUtils.clear_field,
        ElementUtils.is_displayed, ElementUtils.is_enabled, ElementUtils.get_text,
        ElementUtils.get_attribute, h]
  · intro h
    refine ⟨?_, ?_, ?_, ?_, ?_, ?_, ?_⟩ <;> intro hop
    · simp [ElementUtils.click, h, hop]
    · constructor <;>
        simp [ElementUtils.type_text, ElementUtils.clear_field, h, hop]
    · simp [ElementUtils.type_text, h]
      cases hcl : el.clearR with
      | error e' => simp
      | ok u => simp [hop]
    · simp [ElementUtils.get_text, h, hop]
    · simp [ElementUtils.is_displayed, h, hop]
    · simp [ElementUtils.is_enabled, h, hop]
    · simp [ElementUtils.get_attribute, h, hop]
  · intro h
    simp [DropdownUtils.get_all_options, h]
  · intro h
    simp [DropdownUtils.get_selected_option_text, h]
  · intro h
    have hfind : de.options.find? (fun o => o.selected) = none := by
      rw [List.find?_eq_none]
      intro x hx
      have hx' := List.all_eq_true.mp h x hx
      simp only [Bool.not_eq_true'] at hx'
      simp [hx']
    simp only [DropdownUtils.get_selected_option_text, hfind]
    split <;> rfl

/-- Witness for the amended C1 theorem, at a driver whose lookups time
out and at a stale element. -/
theorem element_wrappers_swallow_failures_witness :
    (ElementUtils.click d0 loc0 = false
     ∧ ElementUtils.type_text d0 loc0 ("John") = false
     ∧ ElementUtils.clear_field d0 loc0 = false
     ∧ ElementUtils.is_displayed d0 loc0 = false
     ∧ ElementUtils.is_enabled d0 loc0 = false
     ∧ ElementUtils.get_text d0 loc0 = ""
     ∧ ElementUtils.get_attribute d0 loc0 ("value") = some "")
    ∧ DropdownUtils.get_selected_option_text (some dNoSel) = none :=
  ⟨(element_wrappers_swallow_failures d0 loc0 ("John") ("value") el0 PyErr.timeoutErr dNoSel
      { wait_utils := { timeout := 10 } } pw0).1 rfl,
   (element_wrappers_swallow_failures d0 loc0 ("John") ("value") el0 PyErr.timeoutErr dNoSel
      { wait_utils := { timeout := 10 } } pw0).2.2.2.1.2.2.2.2 rfl⟩

/-- C5: `set_state` clicks exactly once when the current state differs
from the desired one and the element is live, and never otherwise
(zero clicks when already in the desired state, the state record then
unchanged); it reports success exactly when the re-read state equals
the desired one on a live element.  `check` clicks only if currently
unselected; `uncheck` clicks only if currently selected. -/
theorem checkbox_set_state_clicks_and_verifies (e : CbElem) (st : CbState) (d : Bool) :
    ((CheckboxUtils.set_state e st d).2.clicks
        = st.clicks + (if e.present && e.attached && (st.sel != d) then 1 else 0))
    ∧ (st.sel = d → (CheckboxUtils.set_state e st d).2 = st)
    ∧ ((CheckboxUtils.set_state e st d).1
        = (e.present && e.attached && ((CheckboxUtils.set_state e st d).2.sel == d)))
    ∧ ((CheckboxUtils.check e st).2.clicks
        = st.clicks + (if e.present && e.attached && !st.sel then 1 else 0))
    ∧ ((CheckboxUtils.uncheck e st).2.clicks
        = st.clicks + (if e.present && e.attached && st.sel then 1 else 0)) := by
  cases hp : e.present <;> cases ha : e.attached <;> cases hs : st.sel <;> cases hd : d <;>
    simp [CheckboxUtils.set_state, CheckboxUtils.check, CheckboxUtils.uncheck, hp, ha, hs]

/-- Witness for C5: with the element already in the desired state, the
state record (including the click counter) is returned unchanged. -/
theorem checkbox_set_state_clicks_and_verifies_witness :
    (CheckboxUtils.set_state { present := true, attached := true, clickEffect := not }
        { sel := true, clicks := 3 } true).2 = { sel := true, clicks := 3 } :=
  (checkbox_set_state_clicks_and_verifies
    { present := true, attached := true, clickEffect := not }
    { sel := true, clicks := 3 } true).2.1 rfl

/-- C6: for a live checkbox element (attached, truthy, with the
standard toggle click behaviour), `set_state(el, s)` followed by
`is_checked(el)` returns `s` and reports success; and `set_state` is
idempotent — a second `set_state(el, s)` leaves the state record,
including the click counter, unchanged (zero clicks on the second
call). -/
theorem checkbox_set_state_roundtrip_idempotent (e : CbElem) (st : CbState) (s : Bool)
    (hp : e.present = true) (ha : e.attached = true) (hc : e.clickEffect = not) :
    CheckboxUtils.is_checked e (CheckboxUtils.set_state e st s).2 = s
    ∧ (CheckboxUtils.set_state e st s).1 = true
    ∧ (CheckboxUtils.set_state e (CheckboxUtils.set_state e st s).2 s).2
        = (CheckboxUtils.set_state e st s).2 := by
  cases hs : st.sel <;> cases hsb : s <;>
    simp [CheckboxUtils.set_state, CheckboxUtils.is_checked, hp, ha, hc, hs]

/-- Witness for C6 on a concrete unchecked checkbox being set to
checked. -/
theorem checkbox_set_state_roundtrip_idempotent_witness :
    CheckboxUtils.is_checked { present := true, attached := true, clickEffect := not }
        (CheckboxUtils.set_state { present := true, attached := true, clickEffect := not }
          { sel := false, clicks := 0 } true).2 = true
    ∧ (CheckboxUtils.set_state { present := true, attached := true, clickEffect := not }
        { sel := false, clicks := 0 } true).1 = true
    ∧ (CheckboxUtils.set_state { present := true, attached := true, clickEffect := not }
        (CheckboxUtils.set_state { present := true, attached := true, clickEffect := not }
          { sel := false, clicks := 0 } true).2 true).2
      = (CheckboxUtils.set_state { present := true, attached := true, clickEffect := not }
          { sel := false, clicks := 0 } true).2 :=
  checkbox_set_state_roundtrip_idempotent
    { present := true, attached := true, clickEffect := not }
    { sel := false, clicks := 0 } true rfl rfl rfl

/-- A matching-text search that succeeds yields an in-range index whose
option's text matches. -/
theorem findTextIdx_get (t : String) :
    ∀ (l : List DOpt) (i : Nat), findTextIdx t l = some i →
      ∃ x : DOpt, l[i]? = some x ∧ (x.text == t) = true := by
  intro l
  induction l with
  | nil =>
    intro i h
    simp [findTextIdx] at h
  | cons o rest ih =>
    intro i h
    by_cases ho : (o.text == t) = true
    · simp only [findTextIdx, ho, if_true] at h
      obtain rfl : (0 : Nat) = i := Option.some.inj h
      exact ⟨o, by simp, ho⟩
    · simp [findTextIdx, ho] at h
      obtain ⟨j, hj, hji⟩ := h
      obtain ⟨x, hx1, hx2⟩ := ih j hj
      subst hji
      exact ⟨x, by simpa using hx1, hx2⟩

/-- If some option's text matches, the matching-text search succeeds. -/
theorem any_findTextIdx (t : String) :
    ∀ l : List DOpt, l.any (fun o => o.text == t) = true →
      ∃ i, findTextIdx t l = some i := by
  intro l
  induction l with
  | nil => intro h; simp at h
  | cons o rest ih =>
    intro h
    by_cases ho : (o.text == t) = true
    · exact ⟨0, by simp [findTextIdx, ho]⟩
    · simp only [List.any_cons, ho, Bool.false_or] at h
      obtain ⟨j, hj⟩ := ih h
      exact ⟨j + 1, by simp [findTextIdx, ho, hj]⟩

/-- A selected option at a valid index forces a positive selected
count. -/
theorem countP_pos_of_get (l : List DOpt) :
    ∀ (i : Nat) (x : DOpt), l[i]? = some x → x.selected = true →
      0 < l.countP (fun o => o.selected) := by
  induction l with
  | nil => intro i x h _; simp at h
  | cons o rest ih =>
    intro i x h hx
    cases i with
    | zero =>
      simp at h
      subst h
      rw [List.countP_cons]
      simp [hx]
    | succ j =>
      simp at h
      have hp := ih j x h hx
      rw [List.countP_cons]
      omega

/-- In a list with at most one selected option, a selected option at a
valid index is the first selected option. -/
theorem find?_unique_selected (l : List DOpt) :
    ∀ (i : Nat) (x : DOpt),
      l.countP (fun o => o.selected) ≤ 1 → l[i]? = some x → x.selected = true →
      l.find? (fun o => o.selected) = some x := by
  induction l with
  | nil => intro i x _ h _; simp at h
  | cons o rest ih =>
    intro i x hcount h hx
    cases i with
    | zero =>
      simp at h
      subst h
      exact List.find?_cons_of_pos _ hx
    | succ j =>
      simp at h
      have hpos := countP_pos_of_get rest j x h hx
      have ho : o.selected = false := by
        cases hos : o.selected
        · rfl
        · exfalso
          rw [List.countP_cons] at hcount
          simp only [hos, if_true] at hcount
          omega
      have hcount' : rest.countP (fun o => o.selected) ≤ 1 := by
        rw [List.countP_cons] at hcount
        omega
      rw [List.find?_cons_of_neg _ (by simp [ho])]
      exact ih j x hcount' h hx

/-- After clicking option `i` of a single select, the first selected
option is exactly option `i`, now selected. -/
theorem selectOnlyAt_find? :
    ∀ (l : List DOpt) (i : Nat) (x : DOpt), l[i]? = some x →
      (selectOnlyAt l i).find? (fun o => o.selected) = some { x with selected := true } := by
  intro l
  induction l with
  | nil => intro i x h; simp at h
  | cons o rest ih =>
    intro i x h
    cases i with
    | zero =>
      simp at h
      subst h
      exact List.find?_cons_of_pos _ (by simp)
    | succ j =>
      simp at h
      simp only [selectOnlyAt]
      rw [List.find?_cons_of_neg _ (by simp)]
      exact ih j x h

/-- C7 (amended): for every single-select control (at most one option
selected, as a browser maintains) that contains an option with
visible text `t`, `select_by_visible_text` followed by
`get_selected_option_text` returns exactly `t`.  (The unamended claim
also covered multi-selects, where an earlier still-selected option is
returned instead — see the counterexample.) -/
theorem dropdown_roundtrip_single_select (e : DElem) (t : String)
    (hsel : e.isSelect = true) (hmul : e.multiple = false)
    (hmem : e.options.any (fun o => o.text == t) = true)
    (hinv : e.options.countP (fun o => o.selected) ≤ 1) :
    DropdownUtils.get_selected_option_text
      (DropdownUtils.select_by_visible_text (some e) t).2 = some t := by
  obtain ⟨i, hidx⟩ := any_findTextIdx t e.options hmem
  obtain ⟨x, hget, htext⟩ := findTextIdx_get t e.options i hidx
  have htext' : x.text = t := by simpa using htext
  have hstep : (DropdownUtils.select_by_visible_text (some e) t).2
      = some (setSelectedAt e i) := by
    simp [DropdownUtils.select_by_visible_text, hsel, hidx]
  cases hxs : x.selected with
  | true =>
    have hset : setSelectedAt e i = e := by
      unfold setSelectedAt
      rw [hget]
      simp [hxs]
    rw [hstep, hset]
    simp [DropdownUtils.get_selected_option_text, hsel,
      find?_unique_selected e.options i x hinv hget hxs, htext']
  | false =>
    have hset : setSelectedAt e i = { e with options := selectOnlyAt e.options i } := by
      unfold setSelectedAt
      rw [hget]
      simp [hxs, hmul]
    rw [hstep, hset]
    simp [DropdownUtils.get_selected_option_text, hsel,
      selectOnlyAt_find? e.options i x hget, htext']

/-- A single select over the country dropdown's options. -/
def dSingle : DElem :=
  { isSelect := true
    multiple := false
    options := [{ text := "United States", selected := true },
                { text := "United Kingdom", selected := false }] }

/-- Witness for the amended C7 theorem on a concrete single select. -/
theorem dropdown_roundtrip_single_select_witness :
    DropdownUtils.get_selected_option_text
      (DropdownUtils.select_by_visible_text (some dSingle) ("United Kingdom")).2
      = some ("United Kingdom") :=
  dropdown_roundtrip_single_select dSingle ("United Kingdom") rfl rfl (by decide) (by decide)

/-- A multi select whose first option is already selected. -/
def dMulti : DElem :=
  { isSelect := true
    multiple := true
    options := [{ text := "A", selected := true }, { text := "B", selected := false }] }

/-- C7 (counterexample): on a multi select containing an option with
text `"B"`, selecting `"B"` succeeds, but `get_selected_option_text`
returns `"A"` — the earlier, still-selected option — not the string
just selected, so the claim fails as stated for every select
element. -/
theorem dropdown_roundtrip_multi_cx :
    dMulti.options.any (fun o => o.text == ("B" : String)) = true
    ∧ (DropdownUtils.select_by_visible_text (some dMulti) ("B")).1 = true
    ∧ DropdownUtils.get_selected_option_text
        (DropdownUtils.select_by_visible_text (some dMulti) ("B")).2 = some ("A")
    ∧ (some ("A") : Option String) ≠ some ("B") := by
  refine ⟨rfl, rfl, rfl, ?_⟩
  decide

/-- C9: the registration-success determination equals the spec's
ordered-cascade policy over the four signals in their fixed order —
it returns `True` exactly when some signal is positive, and the
consulted stages are exactly the prefix of the fixed order up to and
including the first positive signal (all four when none is positive,
which is the only way it returns `False`). -/
theorem register_success_cascade (w : RegPageWorld) :
    (RegisterPage.is_success_message_displayed w).1
      = ([urlSignal w, msgSignal w, contentSignal w, altSignal w].any (fun b => b))
    ∧ (RegisterPage.is_success_message_displayed w).2
      = successCheckOrder.take
          (cascadePolicySpec [urlSignal w, msgSignal w, contentSignal w, altSignal w]).2
    ∧ (RegisterPage.is_success_message_displayed w).1
      = (cascadePolicySpec [urlSignal w, msgSignal w, contentSignal w, altSignal w]).1 := by
  cases h1 : urlSignal w <;> cases h2 : msgSignal w <;> cases h3 : contentSignal w <;>
    cases h4 : altSignal w <;>
    simp [RegisterPage.is_success_message_displayed, cascadePolicySpec,
      successCheckOrder, h1, h2, h3, h4]

/-- C10: in the keyboard-submission login scenario, after the
navigation, the keyboard credential entry (Tab between fields, Enter
on the password field) and the fixed 1 s delay, the flow checks the
URL for the account-page marker; exactly when the marker is absent it
falls back to one click of the Login button and returns the My
Account indicator, and when the marker is present it returns `True`
with no button click ever issued. -/
theorem login_keyboard_fallback (w : LoginWorld) (u p : String) :
    (pyIn ("rt=account/account") w.urlAfterEnter = true →
       LoginFlow.validate_login_using_keyboard_keys w u p
         = (true,
            [FlowEv.clickedRegisterLink,
             FlowEv.typedKeys ("loginFrm_loginname") u, FlowEv.pressedTab,
             FlowEv.typedKeys ("loginFrm_password") p, FlowEv.pressedEnter,
             FlowEv.slept 1]))
    ∧ (pyIn ("rt=account/account") w.urlAfterEnter = false →
       LoginFlow.validate_login_using_keyboard_keys w u p
         = (w.myAccountVisible,
            [FlowEv.clickedRegisterLink,
             FlowEv.typedKeys ("loginFrm_loginname") u, FlowEv.pressedTab,
             FlowEv.typedKeys ("loginFrm_password") p, FlowEv.pressedEnter,
             FlowEv.slept 1, FlowEv.clickedLoginButton])) := by
  constructor <;> intro h <;> simp [LoginFlow.validate_login_using_keyboard_keys, h]

/-- A session whose Enter-key submission redirected to the account
page within the delay. -/
def lwRedirected : LoginWorld :=
  { urlAfterEnter := "https://automationteststore.com/index.php?rt=account/account"
    myAccountVisible := true }

/-- A session whose Enter-key submission did not redirect. -/
def lwStuck : LoginWorld :=
  { urlAfterEnter := "https://automationteststore.com/index.php?rt=account/login"
    myAccountVisible := false }

/-- Witness for C10 on a redirected and on a non-redirected session. -/
theorem login_keyboard_fallback_witness :
    LoginFlow.validate_login_using_keyboard_keys lwRedirected ("john") ("Secret123!")
      = (true,
         [FlowEv.clickedRegisterLink,
          FlowEv.typedKeys ("loginFrm_loginname") ("john"), FlowEv.pressedTab,
          FlowEv.typedKeys ("loginFrm_password") ("Secret123!"), FlowEv.pressedEnter,
          FlowEv.slept 1])
    ∧ LoginFlow.validate_login_using_keyboard_keys lwStuck ("john") ("Secret123!")
      = (false,
         [FlowEv.clickedRegisterLink,
          FlowEv.typedKeys ("loginFrm_loginname") ("john"), FlowEv.pressedTab,
          FlowEv.typedKeys ("loginFrm_password") ("Secret123!"), FlowEv.pressedEnter,
          FlowEv.slept 1, FlowEv.clickedLoginButton]) :=
  ⟨(login_keyboard_fallback lwRedirected ("john") ("Secret123!")).1 (by decide),
   (login_keyboard_fallback lwStuck ("john") ("Secret123!")).2 (by decide)⟩
